import Mathlib

/-!
Verification of the multi-processor site-director scheduling core
(`WorkloadManagementSystem/Agent/MultiProcessorSiteDirector.py`).

The Python agent is shallowly embedded: the external collaborators
(matching service, pilot store, credential provider, compute endpoints,
bundle builder) are oracles supplied as explicit environment records, the
process-wide mutable state (failure counters, slot accounting) is threaded
explicitly, and the randomness (queue shuffle, allocator draws) is an
input.  Python floats (task-queue priorities, `random.random()` draws)
are modelled as rationals.
-/

namespace MPSD

/-! ### Tag derivation and queue retention (`getQueues`, lines 27-54) -/

/-- Python's `str.lower()`, modelled character-wise (the flags and site
names compared in this agent are ASCII). -/
def pyLower (s : String) : String :=
  String.mk (s.data.map Char.toLower)

/-- Truthiness test applied to the whole-node flag (line 43):
`wholeNode.lower() in ( 'yes', 'true' )`. -/
def truthyFlag (s : String) : Bool :=
  pyLower s == "yes" || pyLower s == "true"

/-- The processor tag string `'%dProcessors' % n` (line 36). -/
def procTag (n : Nat) : String :=
  Nat.repr n ++ "Processors"

/-- `['%dProcessors' % p for p in range(1, int(maxProcessors)+1)]`
(lines 35-36). -/
def processorsTags (maxProcessors : Nat) : List String :=
  (List.range maxProcessors).map (fun k => procTag (k + 1))

/-- The compute-endpoint description entries consulted by `getQueues`
(`ceDef`, lines 32 and 41). -/
structure CEDef where
  MaxProcessors : Option Nat
  WholeNode : Option String
deriving DecidableEq

/-- The queue's `ParametersDict` entries consulted by the agent.  `Tags`
is the optional pre-existing `'Tags'` key (the code uses `setdefault`, so
the key may be absent before derivation); numeric parameters are kept as
parsed numbers. -/
structure QueueParams where
  MaxProcessors : Option Nat
  WholeNode : Option String
  Tags : Option (List String)
deriving DecidableEq

/-- Effective maximum-processors value (line 33): the operator override in
`ParametersDict` if present, else the endpoint-reported value. -/
def effectiveMaxProcessors (pd : QueueParams) (ce : CEDef) : Option Nat :=
  match pd.MaxProcessors with
  | some v => some v
  | none => ce.MaxProcessors

/-- Effective whole-node flag (lines 41-42): operator override, else the
endpoint value, else the default string `'false'`. -/
def effectiveWholeNode (pd : QueueParams) (ce : CEDef) : String :=
  match pd.WholeNode with
  | some v => v
  | none =>
    match ce.WholeNode with
    | some v => v
    | none => "false"

/-- Lines 32-39: append the processor tags to the (possibly absent)
`Tags` entry.  In the source, a maximum-processors value of `0` adds no
tag and leaves an absent `Tags` key absent (either the truthiness guard
on line 34 or the non-empty-list guard on line 37 prevents the
`setdefault`), which the `m ≥ 1` branch condition reproduces. -/
def addProcessorsTags (pd : QueueParams) (ce : CEDef) : Option (List String) :=
  match effectiveMaxProcessors pd ce with
  | some m => if m ≥ 1 then some (pd.Tags.getD [] ++ processorsTags m) else pd.Tags
  | none => pd.Tags

/-- Lines 32-45: the final state of the `'Tags'` entry after tag
derivation (`none` = the key is absent). -/
def deriveTags (pd : QueueParams) (ce : CEDef) : Option (List String) :=
  let t1 := addProcessorsTags pd ce
  if truthyFlag (effectiveWholeNode pd ce) then some (t1.getD [] ++ ["WholeNode"])
  else t1

/-- The derived tag set of a queue, reading an absent `'Tags'` key as the
empty set. -/
def derivedTagSet (pd : QueueParams) (ce : CEDef) : List String :=
  (deriveTags pd ce).getD []

/-- Lines 47-52: a queue stays in `queueDict` iff the `'Tags'` key exists
and the tag list contains the literal string `'2Processors'` or
`'WholeNode'`; otherwise `del self.queueDict[queueName]`. -/
def retainQueue (pd : QueueParams) (ce : CEDef) : Bool :=
  match deriveTags pd ce with
  | none => false
  | some tags => tags.contains "2Processors" || tags.contains "WholeNode"

/-! ### Backoff gate (`submitJobs`, lines 147-152) -/

/-- Line 148-149: the queue is skipped this cycle iff
`failedQueues[queue] % failedQueueCycleFactor != 0`. -/
def backoffSkip (counter cycleFactor : Nat) : Bool :=
  counter % cycleFactor != 0

/-- Counter evolution across one cycle's gate: a skipped cycle increments
the counter by one (line 151); an eligible cycle leaves it to the rest of
the loop. -/
def backoffNext (counter cycleFactor : Nat) : Nat :=
  if backoffSkip counter cycleFactor then counter + 1 else counter

/-- Number of consecutive cycles the gate skips a queue before it becomes
eligible again, assuming no submission happens in between (each skipped
cycle bumps the counter by one).  Fuel-bounded; fuel `cycleFactor`
suffices. -/
def skipsUntilEligible : Nat → Nat → Nat → Nat
  | 0, _, _ => 0
  | fuel + 1, counter, cycleFactor =>
    if backoffSkip counter cycleFactor then
      skipsUntilEligible fuel (counter + 1) cycleFactor + 1
    else 0

/-! ### Data model of the scheduling cycle (`submitJobs`, lines 56-374) -/

/-- One task queue as reported by the matching service
(`getMatchingTaskQueues`): job count, priority weight (a Python float,
modelled as a rational), and the optional `Tags`, `Sites` and `JobTypes`
entries. -/
structure TaskQueueInfo where
  Jobs : Nat
  Priority : ℚ
  Tags : Option (List String)
  Sites : Option (List String)
  JobTypes : Option (List String)
deriving DecidableEq

/-- The static per-queue configuration the loop body reads from
`queueDict` (lines 154-160 and 177).  `ParamTags` is
`ParametersDict['Tags']` (always present for a retained queue);
`CPUTime` is the optional `ParametersDict['CPUTime']`. -/
structure QueueConfig where
  name : String
  Site : String
  ParamTags : List String
  CPUTime : Option Nat
deriving DecidableEq

/-- Agent options read by the loop: `failedQueueCycleFactor` (line 148),
`maxQueueLength` (line 182), `maxPilotsToSubmit` (line 298) and
`pilotWaitingFlag` (line 258). -/
structure AgentConfig where
  failedQueueCycleFactor : Nat
  maxQueueLength : Nat
  maxPilotsToSubmit : Nat
  pilotWaitingFlag : Bool
deriving DecidableEq

/-- Outcome of one iteration of the `while pilotsToSubmit > 0` loop, as
answered by the external bundle builder and compute endpoint:
`getExecutable` fails (line 309), or it yields a chunk and `ce.submitJob`
fails (line 319), or the submission succeeds with a list of pilot
references.  `draws` supplies the `random.random()` value in `[0,1)`
drawn for each returned pilot by the priority allocator (line 344). -/
inductive SubmitOutcome where
  | execFail (msg : String)
  | submitFail (chunk : Nat) (msg : String)
  | submitOK (chunk : Nat) (pilots : List Nat) (draws : List ℚ)
deriving DecidableEq

/-- External responses for one queue's processing: the per-queue platform
compatibility query (line 202), the per-queue demand probe (line 209),
the per-tag waiting-pilot count (line 260), the per-tag credential
acquisition (line 279), the endpoint slot count, and the per-tag
submission-loop outcomes.

Modelled from the spec: `getQueueSlots` (line 286) is defined in the base
`SiteDirector` class, which is not part of this repository's sources; per
§4.5 it reports the queue's available endpoint slots, fetched externally
once and then decremented in memory as pilots are submitted, so `slots`
is the initial external value and the in-memory decrements are threaded
through the cycle state. -/
structure QueueEnv where
  platformsResult : Except String (List String)
  matchResult : Except String (List (Nat × TaskQueueInfo))
  waitingResult : String → Except String Nat
  proxyResult : String → Except String Unit
  slots : Nat
  outcomes : String → List SubmitOutcome
deriving Inhabited

/-- External responses consumed before the queue loop: the global
platform list (line 72), the global demand probe (line 86), the global
waiting-pilot count (line 115, observability only), the site mask
(lines 129/137), the queue processing order (`random.shuffle`, line 142,
randomness as input) and each queue's environment. -/
structure GlobalEnv where
  platformsResult : Except String (List String)
  matchResult : Except String (List (Nat × TaskQueueInfo))
  waitingPilotsResult : Except String Nat
  siteMaskResult : Except String (List String)
  queues : List QueueConfig
  queueEnv : String → QueueEnv

/-- The mutable state observable across a cycle: the per-queue failure
counters (instance state `self.failedQueues`, surviving the cycle), the
cycle's submitted-pilot total (line 143), plus a trace of the external
interactions the claims talk about: how many per-queue demand probes were
issued, which pilot-to-task-queue associations were recorded, how many
allocator draws were made, and how many draws selected no task queue
(the cumulative-weight scan fell through without a break, line 345-348). -/
structure CycleState where
  failedQueues : List (String × Nat)
  totalSubmittedPilots : Nat
  perQueueProbes : Nat
  assignments : List (Nat × Nat)
  allocCalls : Nat
  noSelect : Nat
deriving DecidableEq

/-- Lookup of a queue's failure counter (`defaultdict`-style: absent
means zero). -/
def getCount (l : List (String × Nat)) (q : String) : Nat :=
  (l.lookup q).getD 0

/-- `self.failedQueues[queue] += 1`. -/
def bumpCount : List (String × Nat) → String → List (String × Nat)
  | [], q => [(q, 1)]
  | (k, v) :: rest, q =>
    if k = q then (k, v + 1) :: rest else (k, v) :: bumpCount rest q

/-- Result of a piece of the cycle: either continue with the new state,
or abort the whole cycle (`return result` inside `submitJobs`) carrying
the error message and the instance state at that point. -/
inductive StepResult (α : Type) where
  | ok (a : α)
  | abort (msg : String) (a : α)
deriving DecidableEq

/-- The state threaded across the tag buckets of one queue: the cycle
state, the in-memory available-slot count
(`self.queueSlots[queue]['AvailableSlots']`, line 330) and the pilots
already submitted to this queue this cycle (`queueSubmittedPilots`,
line 240). -/
structure QueueLoopState where
  cyc : CycleState
  availableSlots : Int
  queueSubmittedPilots : Nat
deriving DecidableEq

/-- Projection of the state carried by a step result. -/
def stepState : StepResult QueueLoopState → QueueLoopState
  | .ok a => a
  | .abort _ a => a

/-- Lines 93-105: the set of sites named by the global demand (every
listed site whose lowercase form is not `'any'`). -/
def computeJobSites (tqs : List (Nat × TaskQueueInfo)) : List String :=
  tqs.foldl
    (fun acc tq =>
      match tq.2.Sites with
      | none => acc
      | some sites => acc ++ sites.filter (fun s => pyLower s ≠ "any")) []

/-- Lines 93-105: whether any task queue either names no site or names
the site `'any'`. -/
def computeAnySite (tqs : List (Nat × TaskQueueInfo)) : Bool :=
  tqs.any
    (fun tq =>
      match tq.2.Sites with
      | none => true
      | some sites => sites.any (fun s => pyLower s == "any"))

/-- Lines 106-110: sites of task queues that declare `JobTypes` and list
explicit sites (used for the test-workload gate, line 173). -/
def computeTestSites (tqs : List (Nat × TaskQueueInfo)) : List String :=
  tqs.foldl
    (fun acc tq =>
      match tq.2.JobTypes with
      | none => acc
      | some _ =>
        match tq.2.Sites with
        | none => acc
        | some sites => acc ++ sites.filter (fun s => pyLower s ≠ "any")) []

/-- Line 165: `re.match( r'^[0-9]+Processors$', tag )` — a non-empty
digit run followed by exactly the literal `Processors` (maximal-munch on
the digit run coincides with the regex because `P` is not a digit). -/
def matchesProcessorsRe (s : String) : Bool :=
  let ds := s.data.takeWhile Char.isDigit
  ds.length ≥ 1 && (s.data.drop ds.length == "Processors".data)

/-- Lines 162-168: the queue's processor tags — every queue tag matching
the processor regex, plus `'WholeNode'` if present. -/
def processorTagsOf (queueTags : List String) : List String :=
  queueTags.filter matchesProcessorsRe
    ++ (if queueTags.contains "WholeNode" then ["WholeNode"] else [])

/-- Helper for the tag partition: append a task queue id and its job
count to the bucket of `tag`, creating the bucket on first use
(`setdefault`, lines 229-233). -/
def addToBucket (buckets : List (String × List Nat × Nat)) (tag : String)
    (tq : Nat) (jobs : Nat) : List (String × List Nat × Nat) :=
  match buckets with
  | [] => [(tag, [tq], jobs)]
  | (t, ids, j) :: rest =>
    if t = tag then (t, ids ++ [tq], j + jobs) :: rest
    else (t, ids, j) :: addToBucket rest tag tq jobs

/-- Lines 223-235: partition the matched task queues by processor tag,
building `tqIDListByProcessors` and `totalTQJobsByProcessors` together
(task queues without a `Tags` entry are skipped).  The Python dict
iteration order is arbitrary; the model fixes first-encounter order. -/
def tagPartition (tqs : List (Nat × TaskQueueInfo)) (ptags : List String) :
    List (String × List Nat × Nat) :=
  tqs.foldl
    (fun buckets tq =>
      match tq.2.Tags with
      | none => buckets
      | some ts =>
        ts.foldl
          (fun b tag =>
            if ptags.contains tag then addToBucket b tag tq.1 tq.2.Jobs else b)
          buckets)
    []

/-- Priority of a task queue id in the probe result (`taskQueueDict[tq]
['Priority']`); ids handed to the allocator always come from the probe
result, so the `none` fallback is never reached on code paths. -/
def lookupPriority (tqs : List (Nat × TaskQueueInfo)) (i : Nat) : ℚ :=
  match tqs.lookup i with
  | some info => info.Priority
  | none => 0

/-- Lines 336-340: the cumulative-priority list `tqPriorityList`
(`(tq, runningSum)` pairs). -/
def buildCumulative (tqs : List (Nat × TaskQueueInfo)) :
    List Nat → ℚ → List (Nat × ℚ)
  | [], _ => []
  | i :: rest, acc =>
    let acc' := acc + lookupPriority tqs i
    (i, acc') :: buildCumulative tqs rest acc'

/-- Line 337-339: `sumPriority`, the total priority weight of the task
queues eligible for a tag bucket. -/
def sumPriorityOf (tqs : List (Nat × TaskQueueInfo)) (ids : List Nat) : ℚ :=
  (ids.map (lookupPriority tqs)).sum

/-- Lines 345-348: scan the cumulative list for the first task queue
whose cumulative weight strictly exceeds the draw; `none` models the
fall-through where no `break` fires (the Python code then reuses a stale
`tqID` variable). -/
def selectTQ : List (Nat × ℚ) → ℚ → Option Nat
  | [], _ => none
  | (tq, p) :: rest, rndm => if rndm < p then some tq else selectTQ rest rndm

/-- Lines 293-298: the tag bucket's submission budget —
`max(0, min(totalSlots, tagTQJobs - tagWaitingPilots))` further capped by
`maxPilotsToSubmit - queueSubmittedPilots`. -/
def initialPilots (cfg : AgentConfig) (slots : Int)
    (tagTQJobs tagWaitingPilots queueSubmitted : Nat) : Int :=
  min ((cfg.maxPilotsToSubmit : Int) - queueSubmitted)
    (max 0 (min slots ((tagTQJobs : Int) - tagWaitingPilots)))

/-- Lines 343-351: one allocator draw per returned pilot — the draw `u`
is scaled by `sumPriority` (line 344) and the cumulative list is scanned
for the first strict exceedance. -/
def allocSelections (cumList : List (Nat × ℚ)) (sumPriority : ℚ)
    (pilots : List Nat) (draws : List ℚ) : List (Nat × Option Nat) :=
  (pilots.zip draws).map (fun pd => (pd.1, selectTQ cumList (pd.2 * sumPriority)))

/-- Lines 325-351: the state after one successful submission call — the
per-queue and total counters grow, the in-memory slot count shrinks by
the number of returned pilots, and the allocator records one selection
per returned pilot (the pilot-store bookkeeping writes of lines 353-371
only log on failure and are absorbed into the trace). -/
def successState (cumList : List (Nat × ℚ)) (sumPriority : ℚ) (chunk : Nat)
    (pilots : List Nat) (draws : List ℚ) (qs : QueueLoopState) : QueueLoopState :=
  let sel := allocSelections cumList sumPriority pilots draws
  { cyc :=
      { qs.cyc with
        totalSubmittedPilots := qs.cyc.totalSubmittedPilots + pilots.length
        assignments := qs.cyc.assignments
          ++ sel.filterMap (fun pd => pd.2.map (fun tq => (pd.1, tq)))
        allocCalls := qs.cyc.allocCalls + sel.length
        noSelect := qs.cyc.noSelect + sel.countP (fun pd => pd.2 = none) }
    availableSlots := qs.availableSlots - pilots.length
    queueSubmittedPilots := qs.queueSubmittedPilots + chunk }

/-- The `while pilotsToSubmit > 0` loop (lines 300-371), driven by the
modelled outcome list (one entry per iteration of external calls); the
loop stops as soon as the budget is exhausted.  On bundle-builder failure
the whole cycle aborts (line 310); on endpoint failure the remaining
budget is zeroed and the queue's failure counter is bumped (lines
319-323); on success the budget shrinks by the submitted chunk and the
state advances by `successState`. -/
def submissionLoop (qname : String) (cumList : List (Nat × ℚ))
    (sumPriority : ℚ) :
    List SubmitOutcome → Int → QueueLoopState → StepResult QueueLoopState
  | [], _, qs => .ok qs
  | .execFail msg :: _, pts, qs =>
    if pts ≤ 0 then .ok qs else .abort msg qs
  | .submitFail _ _ :: rest, pts, qs =>
    if pts ≤ 0 then .ok qs
    else
      submissionLoop qname cumList sumPriority rest 0
        { qs with
          cyc := { qs.cyc with failedQueues := bumpCount qs.cyc.failedQueues qname } }
  | .submitOK chunk pilots draws :: rest, pts, qs =>
    if pts ≤ 0 then .ok qs
    else
      submissionLoop qname cumList sumPriority rest (pts - chunk)
        (successState cumList sumPriority chunk pilots draws qs)

/-- Lines 256-268: the waiting-pilot count for a tag bucket — zero unless
`pilotWaitingFlag` is set, and zero again if the pilot-store query fails
(the failure is only logged). -/
def tagWaiting (cfg : AgentConfig) (qenv : QueueEnv) (tag : String) : Nat :=
  if cfg.pilotWaitingFlag then
    match qenv.waitingResult tag with
    | .error _ => 0
    | .ok n => n
  else 0

/-- One tag bucket of a queue (lines 241-331): compare waiting pilots to
bucket demand (line 269), acquire the credential (lines 277-283 — a
failure is `return result`, aborting the cycle), read the in-memory slot
count (lines 286-289), compute the budget (lines 293-298) and run the
submission loop. -/
def processTag (cfg : AgentConfig) (qenv : QueueEnv) (qname : String)
    (tqs : List (Nat × TaskQueueInfo)) (tag : String) (ids : List Nat)
    (tagTQJobs : Nat) (qs : QueueLoopState) : StepResult QueueLoopState :=
  let tagWaitingPilots := tagWaiting cfg qenv tag
  if tagWaitingPilots ≥ tagTQJobs then .ok qs
  else
    match qenv.proxyResult tag with
    | .error e => .abort e qs
    | .ok _ =>
      let totalSlots := qs.availableSlots
      if totalSlots = 0 then .ok qs
      else
        submissionLoop qname (buildCumulative tqs ids 0) (sumPriorityOf tqs ids)
          (qenv.outcomes tag)
          (initialPilots cfg totalSlots tagTQJobs tagWaitingPilots qs.queueSubmittedPilots)
          qs

/-- Fold of `processTag` over the queue's tag buckets (`for tag in
tqIDListByProcessors`, line 241), aborting the cycle on an aborted
bucket. -/
def processTags (cfg : AgentConfig) (qenv : QueueEnv) (qname : String)
    (tqs : List (Nat × TaskQueueInfo)) :
    List (String × List Nat × Nat) → QueueLoopState → StepResult QueueLoopState
  | [], qs => .ok qs
  | (tag, ids, jobs) :: rest, qs =>
    match processTag cfg qenv qname tqs tag ids jobs qs with
    | .abort e qs' => .abort e qs'
    | .ok qs' => processTags cfg qenv qname tqs rest qs'

/-- One queue of the cycle (lines 145-331): backoff gate, workload and
site-mask gates, `CPUTime` presence check (lines 177-181 — absent means
skip the queue), per-queue platform query (lines 202-204 — a failure
skips the queue), per-queue demand probe (lines 209-216 — a failure is
`return result`, aborting the cycle; an empty result skips the queue),
then the tag buckets. -/
def processQueue (cfg : AgentConfig) (qenv : QueueEnv)
    (jobSites : List String) (anySite : Bool) (testSites : List String)
    (siteMask : List String) (q : QueueConfig) (st : CycleState) :
    StepResult CycleState :=
  if getCount st.failedQueues q.name % cfg.failedQueueCycleFactor ≠ 0 then
    .ok { st with failedQueues := bumpCount st.failedQueues q.name }
  else if !anySite && !jobSites.contains q.Site then .ok st
  else if !siteMask.contains q.Site && !testSites.contains q.Site then .ok st
  else
    match q.CPUTime with
    | none => .ok st
    | some _cput =>
      match qenv.platformsResult with
      | .error _ => .ok st
      | .ok _ =>
        let st1 := { st with perQueueProbes := st.perQueueProbes + 1 }
        match qenv.matchResult with
        | .error e => .abort e st1
        | .ok taskQueues =>
          if taskQueues.isEmpty then .ok st1
          else
            match
              processTags cfg qenv q.name taskQueues
                (tagPartition taskQueues (processorTagsOf q.ParamTags))
                ⟨st1, (qenv.slots : Int), 0⟩
            with
            | .ok qls => .ok qls.cyc
            | .abort e qls => .abort e qls.cyc

/-- Fold of `processQueue` over the (shuffled) queue list, aborting the
cycle when a queue aborts it. -/
def processQueues (cfg : AgentConfig) (env : GlobalEnv)
    (jobSites : List String) (anySite : Bool) (testSites : List String)
    (siteMask : List String) :
    List QueueConfig → CycleState → StepResult CycleState
  | [], st => .ok st
  | q :: rest, st =>
    match processQueue cfg (env.queueEnv q.name) jobSites anySite testSites siteMask q st with
    | .abort e st' => .abort e st'
    | .ok st' => processQueues cfg env jobSites anySite testSites siteMask rest st'

/-- The whole cycle (`submitJobs`, lines 56-374): global platform query
(lines 72-74, failure aborts), global demand probe (lines 85-91, failure
aborts, an empty result ends the cycle early with success), global
waiting-pilot count (lines 115-121, observability only — errors are
ignored), site mask (lines 127-140, failure aborts), then the queue
loop.  A finished cycle reports success (line 374). -/
def submitJobs (cfg : AgentConfig) (env : GlobalEnv) (st : CycleState) :
    StepResult CycleState :=
  match env.platformsResult with
  | .error e => .abort e st
  | .ok _ =>
    match env.matchResult with
    | .error e => .abort e st
    | .ok tqs =>
      if tqs.isEmpty then .ok st
      else
        match env.siteMaskResult with
        | .error e => .abort e st
        | .ok siteMask =>
          processQueues cfg env (computeJobSites tqs) (computeAnySite tqs)
            (computeTestSites tqs) siteMask env.queues st

/-- Well-formedness of a run of the submission loop, expressing the
bundle builder's contract along the loop's own budget evolution.

Modelled from the spec: `getExecutable` is defined in the base
`SiteDirector` class, not in this repository's sources; per §4.7 step 2
the bundle it builds is "sized to at most the remaining
`pilotsToSubmit`", so every successful or failed submission attempt uses
a chunk bounded by the budget current at that iteration. -/
def chunksOK : List SubmitOutcome → Int → Bool
  | [], _ => true
  | .execFail _ :: _, _ => true
  | .submitFail chunk _ :: rest, pts =>
    if pts ≤ 0 then true else (chunk : Int) ≤ pts && chunksOK rest 0
  | .submitOK chunk _ _ :: rest, pts =>
    if pts ≤ 0 then true else (chunk : Int) ≤ pts && chunksOK rest (pts - chunk)

/-! ### Decimal representation facts (for the `'%dProcessors'` tags) -/

theorem digitChar_inj_lt10 (a b : Nat) (ha : a < 10) (hb : b < 10)
    (h : Nat.digitChar a = Nat.digitChar b) : a = b := by
  interval_cases a <;> interval_cases b <;>
    first
      | rfl
      | exact absurd h (by decide)

theorem toDigitsCore_eq :
    ∀ (fuel n : Nat) (acc : List Char), n < fuel → n ≠ 0 →
      Nat.toDigitsCore 10 fuel n acc =
        ((Nat.digits 10 n).map Nat.digitChar).reverse ++ acc
  | 0, n, _, hfuel, _ => absurd hfuel (by omega)
  | fuel + 1, n, acc, hfuel, hn => by
    have hdig : Nat.digits 10 n = n % 10 :: Nat.digits 10 (n / 10) :=
      Nat.digits_def' (by norm_num) (Nat.pos_of_ne_zero hn)
    rw [show Nat.toDigitsCore 10 (fuel + 1) n acc =
        (if n / 10 = 0 then Nat.digitChar (n % 10) :: acc
         else Nat.toDigitsCore 10 fuel (n / 10) (Nat.digitChar (n % 10) :: acc)) from rfl]
    by_cases h : n / 10 = 0
    · rw [if_pos h, hdig, h]
      simp
    · have hlt : n / 10 < n := Nat.div_lt_self (Nat.pos_of_ne_zero hn) (by norm_num)
      rw [if_neg h, toDigitsCore_eq fuel (n / 10) _ (by omega) h, hdig]
      simp

theorem repr_eq_digits (n : Nat) (hn : n ≠ 0) :
    Nat.repr n = (((Nat.digits 10 n).map Nat.digitChar).reverse).asString := by
  show (Nat.toDigits 10 n).asString = _
  unfold Nat.toDigits
  rw [toDigitsCore_eq (n + 1) n [] (Nat.lt_succ_self n) hn]
  simp

theorem map_digitChar_inj :
    ∀ (l1 l2 : List Nat), (∀ x ∈ l1, x < 10) → (∀ x ∈ l2, x < 10) →
      l1.map Nat.digitChar = l2.map Nat.digitChar → l1 = l2
  | [], [], _, _, _ => rfl
  | [], _ :: _, _, _, h => by simp at h
  | _ :: _, [], _, _, h => by simp at h
  | a :: l1, b :: l2, h1, h2, h => by
    simp only [List.map_cons, List.cons.injEq] at h
    have hab := digitChar_inj_lt10 a b (h1 a (List.mem_cons_self a l1))
      (h2 b (List.mem_cons_self b l2)) h.1
    subst hab
    rw [map_digitChar_inj l1 l2 (fun x hx => h1 x (List.mem_cons_of_mem _ hx))
      (fun x hx => h2 x (List.mem_cons_of_mem _ hx)) h.2]

theorem eq_zero_of_repr_eq_repr_zero (b : Nat) (h : Nat.repr b = "0") : b = 0 := by
  by_contra hb
  rw [repr_eq_digits b hb] at h
  have hl : ((Nat.digits 10 b).map Nat.digitChar).reverse = ['0'] := by
    have := List.asString_inj.mp (show _ = (['0'] : List Char).asString from h)
    exact this
  have hmap : (Nat.digits 10 b).map Nat.digitChar = ['0'] := by
    have := congrArg List.reverse hl
    simpa using this
  rcases hdig : Nat.digits 10 b with _ | ⟨d, rest⟩
  · rw [hdig] at hmap; simp at hmap
  · rw [hdig] at hmap
    simp only [List.map_cons, List.cons.injEq] at hmap
    have hrest : rest = [] := by
      rcases rest with _ | _
      · rfl
      · simp at hmap
    have hd10 : d < 10 := Nat.digits_lt_base (by norm_num)
      (by rw [hdig]; exact List.mem_cons_self d rest)
    have hd0 : d = 0 := digitChar_inj_lt10 d 0 hd10 (by norm_num) (by simpa using hmap.1)
    have := Nat.ofDigits_digits 10 b
    rw [hdig, hrest, hd0] at this
    simp [Nat.ofDigits] at this
    exact hb this.symm

theorem nat_repr_inj (a b : Nat) (h : Nat.repr a = Nat.repr b) : a = b := by
  by_cases ha : a = 0 <;> by_cases hb : b = 0
  · rw [ha, hb]
  · subst ha
    exact absurd (eq_zero_of_repr_eq_repr_zero b h.symm) hb
  · subst hb
    exact absurd (eq_zero_of_repr_eq_repr_zero a h) ha
  · rw [repr_eq_digits a ha, repr_eq_digits b hb] at h
    have hrev := List.asString_inj.mp h
    have hmap : (Nat.digits 10 a).map Nat.digitChar = (Nat.digits 10 b).map Nat.digitChar := by
      have := congrArg List.reverse hrev
      simpa using this
    have hdig := map_digitChar_inj _ _
      (fun x hx => Nat.digits_lt_base (by norm_num) hx)
      (fun x hx => Nat.digits_lt_base (by norm_num) hx) hmap
    exact Nat.digits.injective 10 hdig

theorem repr_length_pos (n : Nat) : 1 ≤ (Nat.repr n).length := by
  by_cases hn : n = 0
  · rw [hn]
    decide
  · rw [repr_eq_digits n hn, List.length_asString, List.length_reverse, List.length_map]
    have : Nat.digits 10 n ≠ [] := Nat.digits_ne_nil_iff_ne_zero.mpr hn
    exact List.length_pos.mpr this

theorem procTag_inj (a b : Nat) (h : procTag a = procTag b) : a = b := by
  unfold procTag at h
  have hdata := congrArg String.data h
  rw [String.data_append, String.data_append] at hdata
  have := List.append_cancel_right hdata
  exact nat_repr_inj a b (String.ext this)

theorem procTag_ne_wholeNode (n : Nat) : procTag n ≠ "WholeNode" := by
  intro h
  have hlen := congrArg String.length h
  rw [procTag, String.length_append] at hlen
  have := repr_length_pos n
  have h9 : ("Processors" : String).length = 10 := by decide
  have h10 : ("WholeNode" : String).length = 9 := by decide
  omega

theorem mem_processorsTags (s : String) (m : Nat) :
    s ∈ processorsTags m ↔ ∃ n, 1 ≤ n ∧ n ≤ m ∧ s = procTag n := by
  unfold processorsTags
  simp only [List.mem_map, List.mem_range]
  constructor
  · rintro ⟨k, hk, rfl⟩
    exact ⟨k + 1, by omega, by omega, rfl⟩
  · rintro ⟨n, h1, h2, rfl⟩
    exact ⟨n - 1, by omega, by rw [Nat.sub_add_cancel h1]⟩

theorem procTag_mem_iff (N m : Nat) :
    procTag N ∈ processorsTags m ↔ 1 ≤ N ∧ N ≤ m := by
  rw [mem_processorsTags]
  constructor
  · rintro ⟨n, h1, h2, heq⟩
    have := procTag_inj N n heq
    omega
  · rintro ⟨h1, h2⟩
    exact ⟨N, h1, h2, rfl⟩

theorem wholeNode_not_mem_processorsTags (m : Nat) :
    "WholeNode" ∉ processorsTags m := by
  rw [mem_processorsTags]
  rintro ⟨n, _, _, heq⟩
  exact procTag_ne_wholeNode n heq.symm

/-! ### Tag-derivation theorems -/

/-- With no operator-preset `Tags` entry, the derived tag set is exactly
the processor tags for the effective maximum (an absent maximum behaving
as zero) followed by the optional `WholeNode` tag. -/
theorem derivedTagSet_of_no_preset (pd : QueueParams) (ce : CEDef) (h : pd.Tags = none) :
    derivedTagSet pd ce =
      processorsTags ((effectiveMaxProcessors pd ce).getD 0)
        ++ (if truthyFlag (effectiveWholeNode pd ce) then ["WholeNode"] else []) := by
  unfold derivedTagSet deriveTags addProcessorsTags
  rcases hmax : effectiveMaxProcessors pd ce with _ | m
  · rw [h]
    by_cases htr : truthyFlag (effectiveWholeNode pd ce) <;>
      simp [htr, processorsTags]
  · rw [h]
    by_cases hm : m ≥ 1
    · by_cases htr : truthyFlag (effectiveWholeNode pd ce) <;> simp [hm, htr]
    · have hm0 : m = 0 := by omega
      subst hm0
      by_cases htr : truthyFlag (effectiveWholeNode pd ce) <;>
        simp [htr, processorsTags]

/-- The retention test, restated on the derived tag set. -/
theorem retainQueue_eq_contains (pd : QueueParams) (ce : CEDef) :
    retainQueue pd ce =
      ((derivedTagSet pd ce).contains "2Processors"
        || (derivedTagSet pd ce).contains "WholeNode") := by
  unfold retainQueue derivedTagSet
  rcases deriveTags pd ce with _ | tags <;> simp

theorem contains_true_iff (l : List String) (a : String) :
    l.contains a = true ↔ a ∈ l := by
  simp [List.contains, List.elem_iff]

/-- Membership of a processor tag in the derived tag set (no preset
`Tags`). -/
theorem mem_derivedTagSet_procTag (pd : QueueParams) (ce : CEDef)
    (h : pd.Tags = none) (N : Nat) :
    procTag N ∈ derivedTagSet pd ce ↔
      1 ≤ N ∧ N ≤ (effectiveMaxProcessors pd ce).getD 0 := by
  rw [derivedTagSet_of_no_preset pd ce h, List.mem_append, procTag_mem_iff]
  constructor
  · rintro (hm | hm)
    · exact hm
    · exfalso
      revert hm
      by_cases htr : truthyFlag (effectiveWholeNode pd ce) <;> simp [htr]
      exact procTag_ne_wholeNode N
  · exact Or.inl

/-- Membership of the whole-node tag in the derived tag set (no preset
`Tags`). -/
theorem mem_derivedTagSet_wholeNode (pd : QueueParams) (ce : CEDef)
    (h : pd.Tags = none) :
    "WholeNode" ∈ derivedTagSet pd ce ↔
      truthyFlag (effectiveWholeNode pd ce) = true := by
  rw [derivedTagSet_of_no_preset pd ce h, List.mem_append]
  by_cases htr : truthyFlag (effectiveWholeNode pd ce) <;>
    simp [htr, wholeNode_not_mem_processorsTags]

/-- Claim C3: for a queue without operator-preset tags, the derived tag
set contains `'{N}Processors'` exactly for `1 ≤ N ≤` the effective
maximum-processors value (operator override if present, else the
endpoint value), and contains `'WholeNode'` iff the effective whole-node
flag (operator override else endpoint value) is the string `'yes'` or
`'true'` case-insensitively. -/
theorem claim_C3 (pd : QueueParams) (ce : CEDef) (h : pd.Tags = none) :
    (∀ N, procTag N ∈ derivedTagSet pd ce ↔
      1 ≤ N ∧ ∃ m, effectiveMaxProcessors pd ce = some m ∧ N ≤ m) ∧
    ("WholeNode" ∈ derivedTagSet pd ce ↔
      truthyFlag (effectiveWholeNode pd ce) = true) := by
  refine ⟨fun N => ?_, mem_derivedTagSet_wholeNode pd ce h⟩
  rw [mem_derivedTagSet_procTag pd ce h N]
  rcases heff : effectiveMaxProcessors pd ce with _ | m
  · simp only [Option.getD]
    constructor
    · rintro ⟨h1, h2⟩
      omega
    · rintro ⟨_, m, hm, _⟩
      cases hm
  · simp [heff]

/-- Witness for claim C3: endpoint reports `MaxProcessors = 3` and
`WholeNode = 'Yes'`, no operator overrides. -/
theorem claim_C3_witness :
    procTag 2 ∈ derivedTagSet ⟨none, none, none⟩ ⟨some 3, some "Yes"⟩ ∧
    "WholeNode" ∈ derivedTagSet ⟨none, none, none⟩ ⟨some 3, some "Yes"⟩ :=
  ⟨((claim_C3 ⟨none, none, none⟩ ⟨some 3, some "Yes"⟩ rfl).1 2).mpr
      ⟨by norm_num, 3, rfl, by norm_num⟩,
   (claim_C3 ⟨none, none, none⟩ ⟨some 3, some "Yes"⟩ rfl).2.mpr (by decide)⟩

/-- Claim C4: for a queue without operator-preset tags, the queue is
retained in the catalog iff its derived tag set contains a processor tag
of two or more, or `'WholeNode'`; and any queue whose derived tag set is
exactly the single-processor tag is deleted, deterministically and
without error. -/
theorem claim_C4 (pd : QueueParams) (ce : CEDef) (h : pd.Tags = none) :
    (retainQueue pd ce = true ↔
      (∃ n, 2 ≤ n ∧ procTag n ∈ derivedTagSet pd ce)
        ∨ "WholeNode" ∈ derivedTagSet pd ce) ∧
    (∀ pd' ce', derivedTagSet pd' ce' = [procTag 1] →
      retainQueue pd' ce' = false) := by
  constructor
  · rw [retainQueue_eq_contains]
    simp only [Bool.or_eq_true, contains_true_iff]
    constructor
    · rintro (hm | hm)
      · rw [show ("2Processors" : String) = procTag 2 from rfl] at hm
        exact Or.inl ⟨2, le_refl 2, hm⟩
      · exact Or.inr hm
    · rintro (⟨n, h2n, hmem⟩ | hm)
      · left
        rw [mem_derivedTagSet_procTag pd ce h] at hmem
        rw [show ("2Processors" : String) = procTag 2 from rfl,
          mem_derivedTagSet_procTag pd ce h]
        omega
      · exact Or.inr hm
  · intro pd' ce' hset
    rw [retainQueue_eq_contains, hset]
    decide

/-- Witness for claim C4: a 3-processor whole-node queue is retained; a
queue deriving only the single-processor tag is dropped. -/
theorem claim_C4_witness :
    retainQueue ⟨none, none, none⟩ ⟨some 3, some "Yes"⟩ = true ∧
    retainQueue ⟨some 1, none, none⟩ ⟨none, none⟩ = false :=
  ⟨(claim_C4 ⟨none, none, none⟩ ⟨some 3, some "Yes"⟩ rfl).1.mpr
      (Or.inl ⟨2, by norm_num, by decide⟩),
   (claim_C4 ⟨some 1, none, none⟩ ⟨none, none⟩ rfl).2
      ⟨some 1, none, none⟩ ⟨none, none⟩ (by decide)⟩

/-! ### Backoff-policy theorems -/

theorem backoffSkip_true_iff (c f : Nat) : backoffSkip c f = true ↔ c % f ≠ 0 := by
  simp [backoffSkip]

theorem succ_mod_of_mod_ne (c f : Nat) (hf : 0 < f) (hr : c % f ≠ 0) :
    (c + 1) % f = if c % f + 1 = f then 0 else c % f + 1 := by
  have hf2 : 2 ≤ f := by
    rcases f with _ | _ | f
    · omega
    · exact absurd (Nat.mod_one c) hr
    · omega
  have hlt : c % f < f := Nat.mod_lt _ hf
  rw [Nat.add_mod, Nat.mod_eq_of_lt (show 1 < f by omega)]
  split
  · next h => rw [h, Nat.mod_self]
  · next h => exact Nat.mod_eq_of_lt (by omega)

theorem skipsUntilEligible_eq :
    ∀ (fuel c f : Nat), 0 < f → c % f ≠ 0 → f - c % f ≤ fuel →
      skipsUntilEligible fuel c f = f - c % f
  | 0, c, f, hf, hr, hfuel => by
    have hlt : c % f < f := Nat.mod_lt _ hf
    omega
  | fuel + 1, c, f, hf, hr, hfuel => by
    have hlt : c % f < f := Nat.mod_lt _ hf
    have hgate : backoffSkip c f = true := (backoffSkip_true_iff c f).mpr hr
    rw [skipsUntilEligible, hgate, if_pos rfl]
    rcases eq_or_ne (c % f + 1) f with hlast | hmid
    · have hnext : (c + 1) % f = 0 := by rw [succ_mod_of_mod_ne c f hf hr, if_pos hlast]
      have hzero : skipsUntilEligible fuel (c + 1) f = 0 := by
        cases fuel with
        | zero => rfl
        | succ fuel' =>
          rw [skipsUntilEligible]
          simp [backoffSkip, hnext]
      omega
    · have hnext : (c + 1) % f = c % f + 1 := by
        rw [succ_mod_of_mod_ne c f hf hr, if_neg hmid]
      have ih := skipsUntilEligible_eq fuel (c + 1) f hf
        (by rw [hnext]; omega) (by rw [hnext]; omega)
      rw [ih, hnext]
      omega

/-- Shared backoff facts: gate result on every intermediate skipped
cycle, the skip count, and re-eligibility. -/
theorem backoff_core (c f : Nat) (hf : 0 < f) (hr : c % f ≠ 0) :
    backoffSkip c f = true ∧ backoffNext c f = c + 1 ∧
    (∀ k, k < f - c % f → backoffSkip (c + k) f = true ∧ backoffNext (c + k) f = c + k + 1) ∧
    skipsUntilEligible f c f = f - c % f ∧
    backoffSkip (c + (f - c % f)) f = false := by
  have hlt : c % f < f := Nat.mod_lt _ hf
  have hmem : ∀ k, k < f - c % f → (c + k) % f = c % f + k := by
    intro k hk
    rw [Nat.add_mod, Nat.mod_eq_of_lt (show k < f by omega)]
    exact Nat.mod_eq_of_lt (by omega)
  have hskip : ∀ k, k < f - c % f → backoffSkip (c + k) f = true := by
    intro k hk
    rw [backoffSkip_true_iff, hmem k hk]
    omega
  refine ⟨(backoffSkip_true_iff c f).mpr hr, ?_, ?_, ?_, ?_⟩
  · unfold backoffNext
    rw [(backoffSkip_true_iff c f).mpr hr]
    simp
  · intro k hk
    refine ⟨hskip k hk, ?_⟩
    unfold backoffNext
    rw [hskip k hk]
    simp
  · exact skipsUntilEligible_eq f c f hf hr (by omega)
  · have hdm := Nat.div_add_mod c f
    have heq : c + (f - c % f) = f * (c / f + 1) := by
      rw [Nat.mul_succ]
      omega
    simp only [backoffSkip, heq, Nat.mul_mod_right]
    simp

/-- Claim C9: whenever the backoff gate skips a queue (its failure
counter is not divisible by the cycle factor), the skip itself increments
the counter by exactly one; the counter grows on every skipped cycle, and
the queue becomes eligible again after `cycleFactor - (counter mod
cycleFactor)` consecutive skipped cycles. -/
theorem claim_C9 (c f : Nat) (hf : 0 < f) (hr : c % f ≠ 0) :
    backoffSkip c f = true ∧ backoffNext c f = c + 1 ∧
    (∀ k, k < f - c % f → backoffSkip (c + k) f = true ∧ backoffNext (c + k) f = c + k + 1) ∧
    skipsUntilEligible f c f = f - c % f ∧
    backoffSkip (c + (f - c % f)) f = false :=
  backoff_core c f hf hr

/-- Witness for claim C9 at `c = 3`, `f = 10`. -/
theorem claim_C9_witness :
    backoffSkip 3 10 = true ∧ backoffNext 3 10 = 3 + 1 ∧
    (backoffSkip (3 + 2) 10 = true ∧ backoffNext (3 + 2) 10 = 3 + 2 + 1) ∧
    skipsUntilEligible 10 3 10 = 10 - 3 % 10 ∧
    backoffSkip (3 + (10 - 3 % 10)) 10 = false :=
  let T := claim_C9 3 10 (by decide) (by decide)
  ⟨T.1, T.2.1, T.2.2.1 2 (by decide), T.2.2.2.1, T.2.2.2.2⟩

/-- Counterexample to claim C5 as stated: for a queue that just failed
once (counter `1`) with cycle factor `10`, the gate skips it for `9`
consecutive cycles — not `f = 10` — before it becomes eligible again. -/
theorem claim_C5_counterexample :
    backoffSkip 1 10 = true ∧ skipsUntilEligible 10 1 10 = 9 ∧ (9 : Nat) ≠ 10 := by
  decide

/-- Claim C5, amended: the backoff gate skips a queue in a cycle iff
`counter mod cycleFactor ≠ 0`, and after a failure leaving a
non-multiple counter the queue becomes eligible again after
`cycleFactor - (counter mod cycleFactor)` consecutive skipped cycles —
strictly fewer than `cycleFactor`. -/
theorem claim_C5 (c f : Nat) (hf : 0 < f) (hr : c % f ≠ 0) :
    (∀ c', backoffSkip c' f = true ↔ c' % f ≠ 0) ∧
    skipsUntilEligible f c f = f - c % f ∧
    backoffSkip (c + (f - c % f)) f = false ∧
    f - c % f < f := by
  have T := backoff_core c f hf hr
  exact ⟨fun c' => backoffSkip_true_iff c' f, T.2.2.2.1, T.2.2.2.2,
    by have := Nat.mod_lt c hf; omega⟩

/-- Witness for claim C5 at `c = 1`, `f = 10`. -/
theorem claim_C5_witness :
    (backoffSkip 7 10 = true ↔ 7 % 10 ≠ 0) ∧
    skipsUntilEligible 10 1 10 = 10 - 1 % 10 ∧
    backoffSkip (1 + (10 - 1 % 10)) 10 = false ∧
    10 - 1 % 10 < 10 :=
  let T := claim_C5 1 10 (by decide) (by decide)
  ⟨T.1 7, T.2.1, T.2.2.1, T.2.2.2⟩

/-! ### Submission-loop theorems -/

theorem submissionLoop_stop (qname : String) (cum : List (Nat × ℚ)) (sp : ℚ)
    (outs : List SubmitOutcome) (pts : Int) (qs : QueueLoopState) (h : pts ≤ 0) :
    submissionLoop qname cum sp outs pts qs = .ok qs := by
  cases outs with
  | nil => rfl
  | cons o rest => cases o <;> simp [submissionLoop, h]

theorem getCount_bump_self :
    ∀ (l : List (String × Nat)) (q : String),
      getCount (bumpCount l q) q = getCount l q + 1
  | [], q => by simp [getCount, bumpCount, List.lookup]
  | (k, v) :: rest, q => by
    by_cases hkq : k = q
    · subst hkq
      simp [getCount, bumpCount, List.lookup]
    · have hne : (q == k) = false := by
        simp [beq_iff_eq]
        exact fun h => hkq h.symm
      simp only [bumpCount, if_neg hkq, getCount, List.lookup, hne]
      exact getCount_bump_self rest q

theorem getCount_bump_ne :
    ∀ (l : List (String × Nat)) (q q' : String), q' ≠ q →
      getCount (bumpCount l q) q' = getCount l q'
  | [], q, q', h => by
    have hne : (q' == q) = false := by simpa using h
    simp [getCount, bumpCount, List.lookup, hne]
  | (k, v) :: rest, q, q', h => by
    by_cases hkq : k = q
    · subst hkq
      have hne : (q' == k) = false := by simpa using h
      simp [getCount, bumpCount, List.lookup, hne]
    · simp only [bumpCount, if_neg hkq, getCount, List.lookup]
      by_cases hk' : q' = k
      · subst hk'
        simp
      · have hne : (q' == k) = false := by simpa using hk'
        simp only [hne]
        exact getCount_bump_ne rest q q' h

/-- The invariant of the submission loop: while the bundle builder
respects its chunk contract, the pilots submitted to the queue never grow
beyond the initial budget. -/
theorem submissionLoop_qsp_bound :
    ∀ (outs : List SubmitOutcome) (pts : Int) (qs qs' : QueueLoopState)
      (qname : String) (cum : List (Nat × ℚ)) (sp : ℚ),
      chunksOK outs pts = true →
      submissionLoop qname cum sp outs pts qs = .ok qs' →
      (qs'.queueSubmittedPilots : Int) ≤ qs.queueSubmittedPilots + max 0 pts
  | [], pts, qs, qs', qname, cum, sp, _, hrun => by
    simp only [submissionLoop, StepResult.ok.injEq] at hrun
    subst hrun
    have := le_max_left (0 : Int) pts
    omega
  | .execFail msg :: rest, pts, qs, qs', qname, cum, sp, _, hrun => by
    by_cases hpts : pts ≤ 0
    · simp only [submissionLoop, if_pos hpts, StepResult.ok.injEq] at hrun
      subst hrun
      have := le_max_left (0 : Int) pts
      omega
    · simp only [submissionLoop, if_neg hpts] at hrun
      cases hrun
  | .submitFail chunk msg :: rest, pts, qs, qs', qname, cum, sp, hok, hrun => by
    by_cases hpts : pts ≤ 0
    · simp only [submissionLoop, if_pos hpts, StepResult.ok.injEq] at hrun
      subst hrun
      have := le_max_left (0 : Int) pts
      omega
    · simp only [submissionLoop, if_neg hpts] at hrun
      simp only [chunksOK, if_neg hpts, Bool.and_eq_true] at hok
      have ih := submissionLoop_qsp_bound rest 0 _ qs' qname cum sp hok.2 hrun
      simp only [max_self] at ih
      have := le_max_left (0 : Int) pts
      omega
  | .submitOK chunk pilots draws :: rest, pts, qs, qs', qname, cum, sp, hok, hrun => by
    by_cases hpts : pts ≤ 0
    · simp only [submissionLoop, if_pos hpts, StepResult.ok.injEq] at hrun
      subst hrun
      have := le_max_left (0 : Int) pts
      omega
    · simp only [submissionLoop, if_neg hpts] at hrun
      simp only [chunksOK, if_neg hpts, Bool.and_eq_true, decide_eq_true_eq] at hok
      have ih := submissionLoop_qsp_bound rest (pts - chunk)
        (successState cum sp chunk pilots draws qs) qs' qname cum sp hok.2 hrun
      have hqsp : (successState cum sp chunk pilots draws qs).queueSubmittedPilots =
          qs.queueSubmittedPilots + chunk := rfl
      rw [hqsp] at ih
      have hchunk : (chunk : Int) ≤ pts := hok.1
      have h1 : max (0 : Int) (pts - chunk) = pts - chunk := max_eq_right (by omega)
      have h2 : max (0 : Int) pts = pts := max_eq_right (by omega)
      rw [h1] at ih
      rw [h2]
      push_cast at ih ⊢
      omega

theorem chunksOK_take :
    ∀ (k : Nat) (outs : List SubmitOutcome) (pts : Int),
      chunksOK outs pts = true → chunksOK (outs.take k) pts = true
  | 0, outs, pts, _ => by simp [chunksOK]
  | k + 1, [], pts, _ => by simp [chunksOK]
  | k + 1, .execFail msg :: rest, pts, _ => by simp [chunksOK]
  | k + 1, .submitFail chunk msg :: rest, pts, hok => by
    by_cases hpts : pts ≤ 0
    · simp [List.take_succ_cons, chunksOK, if_pos hpts]
    · simp only [chunksOK, if_neg hpts, Bool.and_eq_true] at hok
      simp only [List.take_succ_cons, chunksOK, if_neg hpts, Bool.and_eq_true]
      exact ⟨hok.1, chunksOK_take k rest 0 hok.2⟩
  | k + 1, .submitOK chunk pilots draws :: rest, pts, hok => by
    by_cases hpts : pts ≤ 0
    · simp [List.take_succ_cons, chunksOK, if_pos hpts]
    · simp only [chunksOK, if_neg hpts, Bool.and_eq_true] at hok
      simp only [List.take_succ_cons, chunksOK, if_neg hpts, Bool.and_eq_true]
      exact ⟨hok.1, chunksOK_take k rest (pts - chunk) hok.2⟩

theorem max0_min_swap (A B C : Int) :
    max 0 (min C (max 0 (min A B))) = max 0 (min A (min B C)) := by
  simp only [Int.max_def, Int.min_def]
  split_ifs <;> omega

/-- Claim C1: starting a tag bucket with the budget of lines 293-298, and
with the bundle builder honouring its size contract, the pilots submitted
to the bucket after any number of submission calls never exceed
`min(availableSlots, tagTQJobs - tagWaitingPilots,
maxPilotsToSubmit - queueSubmittedPilots)` floored at zero. -/
theorem claim_C1 (cfg : AgentConfig) (qname : String) (cum : List (Nat × ℚ))
    (sp : ℚ) (outs : List SubmitOutcome) (qs : QueueLoopState)
    (tagTQJobs tagWaitingPilots : Nat)
    (hok : chunksOK outs
      (initialPilots cfg qs.availableSlots tagTQJobs tagWaitingPilots
        qs.queueSubmittedPilots) = true)
    (k : Nat) (qs' : QueueLoopState)
    (hrun : submissionLoop qname cum sp (outs.take k)
      (initialPilots cfg qs.availableSlots tagTQJobs tagWaitingPilots
        qs.queueSubmittedPilots) qs = .ok qs') :
    (qs'.queueSubmittedPilots : Int) ≤ qs.queueSubmittedPilots +
      max 0 (min qs.availableSlots
        (min ((tagTQJobs : Int) - tagWaitingPilots)
          ((cfg.maxPilotsToSubmit : Int) - qs.queueSubmittedPilots))) := by
  have hinv := submissionLoop_qsp_bound (outs.take k) _ qs qs' qname cum sp
    (chunksOK_take k outs _ hok) hrun
  have harith : max 0 (initialPilots cfg qs.availableSlots tagTQJobs tagWaitingPilots
      qs.queueSubmittedPilots) =
      max 0 (min qs.availableSlots
        (min ((tagTQJobs : Int) - tagWaitingPilots)
          ((cfg.maxPilotsToSubmit : Int) - qs.queueSubmittedPilots))) := by
    unfold initialPilots
    exact max0_min_swap _ _ _
  omega

/-- Witness for claim C1: slots 5, 3 eligible jobs, no waiting pilots,
ceiling 10; one successful call submitting a chunk of 2. -/
theorem claim_C1_witness :
    (((⟨⟨[], 2, 0, [], 2, 2⟩, 3, 2⟩ : QueueLoopState).queueSubmittedPilots : Int)) ≤
      ((⟨⟨[], 0, 0, [], 0, 0⟩, 5, 0⟩ : QueueLoopState).queueSubmittedPilots : Int) +
        max 0 (min (⟨⟨[], 0, 0, [], 0, 0⟩, 5, 0⟩ : QueueLoopState).availableSlots
          (min (((3 : Nat) : Int) - ((0 : Nat) : Int))
            (((AgentConfig.mk 10 100 10 false).maxPilotsToSubmit : Int)
              - (⟨⟨[], 0, 0, [], 0, 0⟩, 5, 0⟩ : QueueLoopState).queueSubmittedPilots))) :=
  claim_C1 ⟨10, 100, 10, false⟩ "Q" [] 0 [.submitOK 2 [7, 8] [0, 0]]
    ⟨⟨[], 0, 0, [], 0, 0⟩, 5, 0⟩ 3 0 (by decide) 1 ⟨⟨[], 2, 0, [], 2, 2⟩, 3, 2⟩ (by decide)

/-- Claim C7: a failed compute-endpoint submission ends the tag bucket's
loop with the remaining budget zeroed, bumps the queue's failure counter
by exactly one, records no pilots from the failed call, and yields a
non-aborting result (the cycle goes on with the remaining tags and
queues). -/
theorem claim_C7 (qname : String) (cum : List (Nat × ℚ)) (sp : ℚ)
    (chunk : Nat) (msg : String) (rest : List SubmitOutcome) (pts : Int)
    (qs : QueueLoopState) (h : 0 < pts) :
    submissionLoop qname cum sp (.submitFail chunk msg :: rest) pts qs =
      .ok { qs with
        cyc := { qs.cyc with failedQueues := bumpCount qs.cyc.failedQueues qname } } ∧
    getCount (bumpCount qs.cyc.failedQueues qname) qname =
      getCount qs.cyc.failedQueues qname + 1 ∧
    (∀ q', q' ≠ qname →
      getCount (bumpCount qs.cyc.failedQueues qname) q' = getCount qs.cyc.failedQueues q') := by
  refine ⟨?_, getCount_bump_self qs.cyc.failedQueues qname,
    fun q' hq' => getCount_bump_ne qs.cyc.failedQueues qname q' hq'⟩
  have hstep : submissionLoop qname cum sp (.submitFail chunk msg :: rest) pts qs =
      submissionLoop qname cum sp rest 0
        { qs with
          cyc := { qs.cyc with failedQueues := bumpCount qs.cyc.failedQueues qname } } := by
    simp only [submissionLoop, if_neg (not_le.mpr h)]
  rw [hstep, submissionLoop_stop _ _ _ _ _ _ (le_refl 0)]

/-- Witness for claim C7 with a concrete loop state. -/
theorem claim_C7_witness :
    submissionLoop "Q" [] 0 [.submitFail 2 "down"] 3 ⟨⟨[], 0, 0, [], 0, 0⟩, 5, 0⟩ =
      .ok ⟨⟨[("Q", 1)], 0, 0, [], 0, 0⟩, 5, 0⟩ ∧
    getCount [("Q", 1)] "Q" = getCount ([] : List (String × Nat)) "Q" + 1 ∧
    getCount [("Q", 1)] "R" = getCount ([] : List (String × Nat)) "R" :=
  let T := claim_C7 "Q" [] 0 2 "down" [] 3 ⟨⟨[], 0, 0, [], 0, 0⟩, 5, 0⟩ (by decide)
  ⟨T.1, T.2.1, T.2.2 "R" (by decide)⟩

/-! ### Priority-allocator theorems -/

theorem sumPriorityOf_cons (tqs : List (Nat × TaskQueueInfo)) (i : Nat)
    (rest : List Nat) :
    sumPriorityOf tqs (i :: rest) = lookupPriority tqs i + sumPriorityOf tqs rest := by
  simp [sumPriorityOf]

theorem selectTQ_some_of_lt :
    ∀ (tqs : List (Nat × TaskQueueInfo)) (ids : List Nat) (acc rndm : ℚ),
      ids ≠ [] → rndm < acc + sumPriorityOf tqs ids →
      (selectTQ (buildCumulative tqs ids acc) rndm).isSome = true
  | _, [], _, _, hne, _ => absurd rfl hne
  | tqs, i :: rest, acc, rndm, _, hlt => by
    rw [buildCumulative]
    by_cases h : rndm < acc + lookupPriority tqs i
    · simp [selectTQ, h]
    · rcases eq_or_ne rest [] with hr | hr
      · exfalso
        subst hr
        rw [sumPriorityOf_cons] at hlt
        simp only [sumPriorityOf, List.map_nil, List.sum_nil, add_zero] at hlt
        exact h (by linarith)
      · simp only [selectTQ, if_neg h]
        apply selectTQ_some_of_lt tqs rest (acc + lookupPriority tqs i) rndm hr
        rw [sumPriorityOf_cons] at hlt
        linarith

theorem selectTQ_none_of_zero :
    ∀ (tqs : List (Nat × TaskQueueInfo)) (ids : List Nat) (acc rndm : ℚ),
      (∀ i ∈ ids, lookupPriority tqs i = 0) → acc ≤ rndm →
      selectTQ (buildCumulative tqs ids acc) rndm = none
  | _, [], _, _, _, _ => rfl
  | tqs, i :: rest, acc, rndm, hz, hacc => by
    rw [buildCumulative]
    have hzi : lookupPriority tqs i = 0 := hz i (List.mem_cons_self i rest)
    simp only [hzi, add_zero, selectTQ, if_neg (not_lt.mpr hacc)]
    exact selectTQ_none_of_zero tqs rest acc rndm
      (fun j hj => hz j (List.mem_cons_of_mem _ hj)) hacc

theorem sumPriorityOf_eq_zero (tqs : List (Nat × TaskQueueInfo)) (ids : List Nat)
    (hz : ∀ i ∈ ids, lookupPriority tqs i = 0) :
    sumPriorityOf tqs ids = 0 := by
  unfold sumPriorityOf
  apply List.sum_eq_zero
  intro x hx
  rcases List.mem_map.mp hx with ⟨i, hi, rfl⟩
  exact hz i hi

/-- Claim C6, amended: the allocator's selection scan, invoked with a
draw `u ∈ [0,1)` scaled by the bucket's total priority weight, always
picks some task queue when the total weight is positive; when every
eligible task queue has zero priority (total weight zero) the scan falls
through and selects none — but the allocator is still invoked for each
submitted pilot (zero total weight does not make the batch empty, see the
counterexample). -/
theorem claim_C6 (tqs : List (Nat × TaskQueueInfo)) (ids : List Nat) (u : ℚ)
    (_h0 : 0 ≤ u) (h1 : u < 1) :
    (0 < sumPriorityOf tqs ids →
      (selectTQ (buildCumulative tqs ids 0) (u * sumPriorityOf tqs ids)).isSome = true) ∧
    ((∀ i ∈ ids, lookupPriority tqs i = 0) →
      selectTQ (buildCumulative tqs ids 0) (u * sumPriorityOf tqs ids) = none) := by
  constructor
  · intro hS
    have hne : ids ≠ [] := by
      rintro rfl
      simp [sumPriorityOf] at hS
    apply selectTQ_some_of_lt tqs ids 0 _ hne
    rw [zero_add]
    calc u * sumPriorityOf tqs ids < 1 * sumPriorityOf tqs ids :=
          mul_lt_mul_of_pos_right h1 hS
      _ = sumPriorityOf tqs ids := one_mul _
  · intro hz
    rw [sumPriorityOf_eq_zero tqs ids hz, mul_zero]
    exact selectTQ_none_of_zero tqs ids 0 0 hz (le_refl 0)

/-- Counterexample to claim C6 as stated: one eligible task queue with
priority weight `0` but one waiting job — the bucket's total weight is
zero, yet a pilot is submitted and the allocator is invoked for it (one
draw, which selects no task queue). -/
theorem claim_C6_counterexample :
    sumPriorityOf [(5, ⟨1, 0, some ["2Processors"], none, none⟩)] [5] = 0 ∧
    (stepState (processTag ⟨10, 100, 10, false⟩
        ⟨.ok [], .ok [], fun _ => .ok 0, fun _ => .ok (), 1,
          fun _ => [.submitOK 1 [42] [(1 : ℚ)/2]]⟩
        "Q" [(5, ⟨1, 0, some ["2Processors"], none, none⟩)] "2Processors" [5] 1
        ⟨⟨[], 0, 0, [], 0, 0⟩, 1, 0⟩)).cyc.allocCalls = 1 ∧
    (stepState (processTag ⟨10, 100, 10, false⟩
        ⟨.ok [], .ok [], fun _ => .ok 0, fun _ => .ok (), 1,
          fun _ => [.submitOK 1 [42] [(1 : ℚ)/2]]⟩
        "Q" [(5, ⟨1, 0, some ["2Processors"], none, none⟩)] "2Processors" [5] 1
        ⟨⟨[], 0, 0, [], 0, 0⟩, 1, 0⟩)).cyc.noSelect = 1 ∧
    (stepState (processTag ⟨10, 100, 10, false⟩
        ⟨.ok [], .ok [], fun _ => .ok 0, fun _ => .ok (), 1,
          fun _ => [.submitOK 1 [42] [(1 : ℚ)/2]]⟩
        "Q" [(5, ⟨1, 0, some ["2Processors"], none, none⟩)] "2Processors" [5] 1
        ⟨⟨[], 0, 0, [], 0, 0⟩, 1, 0⟩)).cyc.totalSubmittedPilots = 1 := by
  with_unfolding_all decide

/-- Witness for claim C6: a positive-weight bucket selects a task queue,
a zero-weight bucket selects none. -/
theorem claim_C6_witness :
    (selectTQ (buildCumulative [(5, ⟨1, 1, some ["2Processors"], none, none⟩)] [5] 0)
      ((1 : ℚ)/2 * sumPriorityOf [(5, ⟨1, 1, some ["2Processors"], none, none⟩)] [5])).isSome
        = true ∧
    selectTQ (buildCumulative [(5, ⟨1, 0, some ["2Processors"], none, none⟩)] [5] 0)
      ((1 : ℚ)/2 * sumPriorityOf [(5, ⟨1, 0, some ["2Processors"], none, none⟩)] [5]) = none :=
  ⟨(claim_C6 [(5, ⟨1, 1, some ["2Processors"], none, none⟩)] [5] ((1 : ℚ)/2)
      (by norm_num) (by norm_num)).1 (by with_unfolding_all decide),
   (claim_C6 [(5, ⟨1, 0, some ["2Processors"], none, none⟩)] [5] ((1 : ℚ)/2)
      (by norm_num) (by norm_num)).2 (by with_unfolding_all decide)⟩

/-! ### Cycle control-flow theorems -/

/-- Claim C10: a queue that passes the backoff and site-eligibility gates
but whose parameter map has no `CPUTime` entry is skipped without error:
the result is the unchanged state — no per-queue demand probe is issued
(the probe trace is untouched), nothing is submitted, and the failure
counter stays as it was. -/
theorem claim_C10 (cfg : AgentConfig) (qenv : QueueEnv) (jobSites : List String)
    (anySite : Bool) (testSites siteMask : List String) (q : QueueConfig)
    (st : CycleState)
    (h1 : getCount st.failedQueues q.name % cfg.failedQueueCycleFactor = 0)
    (h2 : (!anySite && !jobSites.contains q.Site) = false)
    (h3 : (!siteMask.contains q.Site && !testSites.contains q.Site) = false)
    (h4 : q.CPUTime = none) :
    processQueue cfg qenv jobSites anySite testSites siteMask q st = .ok st := by
  unfold processQueue
  rw [if_neg (by simp [h1]), if_neg (by rw [h2]; simp), if_neg (by rw [h3]; simp), h4]

/-- Witness for claim C10: eligible queue, missing `CPUTime`. -/
theorem claim_C10_witness :
    processQueue ⟨10, 100, 10, false⟩ default ["SiteA"] true [] ["SiteA"]
      ⟨"Q1", "SiteA", ["2Processors"], none⟩ ⟨[], 0, 0, [], 0, 0⟩ =
      .ok ⟨[], 0, 0, [], 0, 0⟩ :=
  claim_C10 ⟨10, 100, 10, false⟩ default ["SiteA"] true [] ["SiteA"]
    ⟨"Q1", "SiteA", ["2Processors"], none⟩ ⟨[], 0, 0, [], 0, 0⟩
    (by decide) (by decide) (by decide) rfl

/-- Claim C8: if the global demand probe succeeds and reports zero demand
(and the preceding platform query succeeded), the cycle returns success
immediately with the state untouched — no per-queue probes, no
submissions, no failure-counter changes. -/
theorem claim_C8 (cfg : AgentConfig) (env : GlobalEnv) (st : CycleState)
    (pl : List String) (hp : env.platformsResult = .ok pl)
    (hm : env.matchResult = .ok []) :
    submitJobs cfg env st = .ok st := by
  unfold submitJobs
  rw [hp, hm]
  simp

/-- Witness for claim C8 on a concrete environment. -/
theorem claim_C8_witness :
    submitJobs ⟨10, 100, 10, false⟩
      ⟨.ok [], .ok [], .ok 0, .ok [], [], fun _ => default⟩ ⟨[], 0, 0, [], 0, 0⟩ =
      .ok ⟨[], 0, 0, [], 0, 0⟩ :=
  claim_C8 ⟨10, 100, 10, false⟩ ⟨.ok [], .ok [], .ok 0, .ok [], [], fun _ => default⟩
    ⟨[], 0, 0, [], 0, 0⟩ [] rfl rfl

/-- Counterexample to claim C2 as stated: one fully eligible queue whose
per-queue demand probe fails — the whole cycle aborts with the probe's
error (instead of continuing with the next queue) and the queue's failure
counter is not incremented (it stays absent, i.e. zero, in the aborted
state). -/
theorem claim_C2_counterexample :
    submitJobs ⟨10, 100, 10, false⟩
      ⟨.ok ["plat"], .ok [(1, ⟨1, 1, some ["2Processors"], none, none⟩)], .ok 0,
        .ok ["SiteA"], [⟨"Q1", "SiteA", ["2Processors"], some 1000⟩],
        fun _ => ⟨.ok ["plat"], .error "probe down", fun _ => .ok 0, fun _ => .ok (), 1,
          fun _ => []⟩⟩
      ⟨[], 0, 0, [], 0, 0⟩ =
      .abort "probe down" ⟨[], 0, 1, [], 0, 0⟩ ∧
    getCount ([] : List (String × Nat)) "Q1" = 0 := by
  decide

/-- Claim C2, amended: of the three per-queue failure modes, only a
compute-endpoint submission failure is fatal-to-queue (failure counter
incremented, remaining bucket work skipped, cycle continues); a per-queue
demand-probe failure or a credential-acquisition failure instead aborts
the whole cycle with the error, leaving the failure counter unchanged. -/
theorem claim_C2 :
    (∀ (cfg : AgentConfig) (qenv : QueueEnv) (jobSites : List String) (anySite : Bool)
        (testSites siteMask : List String) (q : QueueConfig) (st : CycleState)
        (e : String) (cput : Nat) (pl : List String),
      getCount st.failedQueues q.name % cfg.failedQueueCycleFactor = 0 →
      (!anySite && !jobSites.contains q.Site) = false →
      (!siteMask.contains q.Site && !testSites.contains q.Site) = false →
      q.CPUTime = some cput →
      qenv.platformsResult = .ok pl →
      qenv.matchResult = .error e →
      processQueue cfg qenv jobSites anySite testSites siteMask q st =
        .abort e { st with perQueueProbes := st.perQueueProbes + 1 }) ∧
    (∀ (cfg : AgentConfig) (qenv : QueueEnv) (qname : String)
        (tqs : List (Nat × TaskQueueInfo)) (tag : String) (ids : List Nat)
        (jobs : Nat) (qs : QueueLoopState) (e : String),
      tagWaiting cfg qenv tag < jobs →
      qenv.proxyResult tag = .error e →
      processTag cfg qenv qname tqs tag ids jobs qs = .abort e qs) ∧
    (∀ (qname : String) (cum : List (Nat × ℚ)) (sp : ℚ) (chunk : Nat) (msg : String)
        (rest : List SubmitOutcome) (pts : Int) (qs : QueueLoopState),
      0 < pts →
      submissionLoop qname cum sp (.submitFail chunk msg :: rest) pts qs =
        .ok { qs with cyc := { qs.cyc with
          failedQueues := bumpCount qs.cyc.failedQueues qname } } ∧
      getCount (bumpCount qs.cyc.failedQueues qname) qname =
        getCount qs.cyc.failedQueues qname + 1) := by
  refine ⟨?_, ?_, ?_⟩
  · intro cfg qenv jobSites anySite testSites siteMask q st e cput pl
      h1 h2 h3 hc hp hm
    unfold processQueue
    rw [if_neg (by simp [h1]), if_neg (by rw [h2]; simp), if_neg (by rw [h3]; simp), hc, hp, hm]
  · intro cfg qenv qname tqs tag ids jobs qs e hw hx
    unfold processTag
    rw [if_neg (by omega), hx]
  · intro qname cum sp chunk msg rest pts qs h
    refine ⟨?_, getCount_bump_self qs.cyc.failedQueues qname⟩
    have hstep : submissionLoop qname cum sp (.submitFail chunk msg :: rest) pts qs =
        submissionLoop qname cum sp rest 0
          { qs with
            cyc := { qs.cyc with failedQueues := bumpCount qs.cyc.failedQueues qname } } := by
      simp only [submissionLoop, if_neg (not_le.mpr h)]
    rw [hstep, submissionLoop_stop _ _ _ _ _ _ (le_refl 0)]

/-- Witness for claim C2, instantiating the three failure modes on
concrete inputs. -/
theorem claim_C2_witness :
    processQueue ⟨10, 100, 10, false⟩
      ⟨.ok [], .error "probe down", fun _ => .ok 0, fun _ => .ok (), 1, fun _ => []⟩
      [] true [] ["SiteA"] ⟨"Q1", "SiteA", ["2Processors"], some 1000⟩
      ⟨[], 0, 0, [], 0, 0⟩ = .abort "probe down" ⟨[], 0, 1, [], 0, 0⟩ ∧
    processTag ⟨10, 100, 10, false⟩
      ⟨.ok [], .ok [], fun _ => .ok 0, fun _ => .error "proxy down", 1, fun _ => []⟩
      "Q1" [] "2Processors" [] 1 ⟨⟨[], 0, 0, [], 0, 0⟩, 1, 0⟩ =
      .abort "proxy down" ⟨⟨[], 0, 0, [], 0, 0⟩, 1, 0⟩ ∧
    (submissionLoop "Q1" [] 0 [.submitFail 1 "ce down"] 2 ⟨⟨[], 0, 0, [], 0, 0⟩, 1, 0⟩ =
      .ok ⟨⟨[("Q1", 1)], 0, 0, [], 0, 0⟩, 1, 0⟩ ∧
     getCount [("Q1", 1)] "Q1" = getCount ([] : List (String × Nat)) "Q1" + 1) :=
  ⟨claim_C2.1 ⟨10, 100, 10, false⟩
      ⟨.ok [], .error "probe down", fun _ => .ok 0, fun _ => .ok (), 1, fun _ => []⟩
      [] true [] ["SiteA"] ⟨"Q1", "SiteA", ["2Processors"], some 1000⟩
      ⟨[], 0, 0, [], 0, 0⟩ "probe down" 1000 [] (by decide) (by decide) (by decide)
      rfl rfl rfl,
   claim_C2.2.1 ⟨10, 100, 10, false⟩
      ⟨.ok [], .ok [], fun _ => .ok 0, fun _ => .error "proxy down", 1, fun _ => []⟩
      "Q1" [] "2Processors" [] 1 ⟨⟨[], 0, 0, [], 0, 0⟩, 1, 0⟩ "proxy down"
      (by decide) rfl,
   claim_C2.2.2 "Q1" [] 0 1 "ce down" [] 2 ⟨⟨[], 0, 0, [], 0, 0⟩, 1, 0⟩ (by decide)⟩

end MPSD
